import Mathlib

set_option maxRecDepth 10000

/-! Shallow embedding of the two batch tools of the brand-monitoring repository:
`domain_tld_checker.py` (namespace `TldChecker`) and `domain_info_collector.py`
(namespace `InfoCollector`).  The network responses (DNS answers, WHOIS records)
are inputs of the embedded functions, so every function is a pure translation of
the Python control flow acting on those responses. -/

/-- Code-point lexicographic comparison of character lists: the order Python
uses to compare strings.  (Implemented by structural recursion so that every
embedded function evaluates by kernel reduction; the corresponding operations of
the core `String` library are written against byte positions and do not.) -/
def charsLe : List Char → List Char → Bool
  | [], _ => true
  | _ :: _, [] => false
  | a :: as, b :: bs => if a = b then charsLe as bs else decide (a < b)

/-- Python string order `a <= b`. -/
def pyLe (a b : String) : Prop := charsLe a.toList b.toList = true

instance : DecidableRel pyLe := fun a b =>
  inferInstanceAs (Decidable (charsLe a.toList b.toList = true))

/-- Python `sorted(list(set(xs)))` on strings: de-duplicate, then sort. -/
def pySortedSet (l : List String) : List String :=
  List.insertionSort pyLe l.dedup

/-- Occurrence of `pat` as a contiguous run of `hay`. -/
def containsSubChars (pat : List Char) : List Char → Bool
  | [] => pat.isEmpty
  | c :: rest => pat.isPrefixOf (c :: rest) || containsSubChars pat rest

/-- Python substring test `pat in hay`. -/
def containsStr (hay pat : String) : Bool :=
  containsSubChars pat.toList hay.toList

/-- Python `s.rstrip(".")`: drop all trailing dots. -/
def rstripDots (s : String) : String :=
  ⟨(s.toList.reverse.dropWhile (fun c => c = '.')).reverse⟩

/-- Splitting a character list on whitespace runs, dropping empty words. -/
def wordsAux : List Char → List Char → List (List Char)
  | [], acc => if acc.isEmpty then [] else [acc.reverse]
  | c :: rest, acc =>
    if c.isWhitespace then
      if acc.isEmpty then wordsAux rest [] else acc.reverse :: wordsAux rest []
    else wordsAux rest (c :: acc)

/-- Python `s.split()`: split on whitespace runs, dropping empty words. -/
def pysplit (s : String) : List String :=
  (wordsAux s.toList []).map (fun l => ⟨l⟩)

/-- Python `int(w)` on a decimal digit string (the only strings the tools apply
it to: re-parsing a rendered preference integer). -/
def natOfChars (l : List Char) : Nat :=
  l.foldl (fun n c => n * 10 + (c.toNat - 48)) 0

/-- Python `s.strip()`: drop whitespace from both ends. -/
def trimStr (s : String) : String :=
  ⟨((s.toList.dropWhile Char.isWhitespace).reverse.dropWhile Char.isWhitespace).reverse⟩

/-- Python `s.lower()` (the inputs are ASCII). -/
def lowerStr (s : String) : String :=
  ⟨s.toList.map Char.toLower⟩

/-- Python slicing `s[:n]` (by characters). -/
def takeStr (n : Nat) (s : String) : String :=
  ⟨s.toList.take n⟩

/-- Python `c in s` for a single character `c`. -/
def charIn (s : String) (c : Char) : Bool :=
  s.toList.contains c

/-- Totality of the Python string order on character lists. -/
theorem charsLe_total : ∀ as bs, charsLe as bs = true ∨ charsLe bs as = true := by
  intro as
  induction as with
  | nil => intro bs; exact Or.inl rfl
  | cons a as ih =>
    intro bs
    cases bs with
    | nil => exact Or.inr rfl
    | cons b bs =>
      by_cases hab : a = b
      · subst hab
        rcases ih bs with h | h
        · exact Or.inl (by simpa [charsLe] using h)
        · exact Or.inr (by simpa [charsLe] using h)
      · rcases lt_trichotomy a b with hlt | heq | hgt
        · exact Or.inl (by simp [charsLe, hab, hlt])
        · exact absurd heq hab
        · exact Or.inr (by simp [charsLe, Ne.symm hab, hgt])

/-- Transitivity of the Python string order on character lists. -/
theorem charsLe_trans : ∀ as bs cs, charsLe as bs = true → charsLe bs cs = true →
    charsLe as cs = true := by
  intro as
  induction as with
  | nil => intro bs cs _ _; rfl
  | cons a as ih =>
    intro bs cs h1 h2
    cases bs with
    | nil => simp [charsLe] at h1
    | cons b bs =>
      cases cs with
      | nil => simp [charsLe] at h2
      | cons c cs =>
        by_cases hab : a = b <;> by_cases hbc : b = c
        · subst hab; subst hbc
          simp only [charsLe, if_pos rfl] at h1 h2 ⊢
          exact ih bs cs h1 h2
        · subst hab
          simp only [charsLe, if_pos rfl, if_neg hbc] at h2 ⊢
          simp only [decide_eq_true_eq] at h2
          simp [hbc, h2]
        · subst hbc
          simp only [charsLe, if_pos rfl, if_neg hab] at h1 ⊢
          simp only [decide_eq_true_eq] at h1
          simp [hab, h1]
        · simp only [charsLe, if_neg hab, if_neg hbc, decide_eq_true_eq] at h1 h2
          have hac : a < c := lt_trans h1 h2
          simp [charsLe, ne_of_lt hac, hac]

instance : IsTotal String pyLe := ⟨fun a b => charsLe_total a.toList b.toList⟩

instance : IsTrans String pyLe :=
  ⟨fun a b c h1 h2 => charsLe_trans a.toList b.toList c.toList h1 h2⟩

/-- Outcome of one `resolver.resolve` call: the answer list, or the exception it
raised.  `err s` stands for any other exception; `s` is the text the tool
splices into its message (`type(e).__name__` in the TLD checker, `str(e)` in the
collector). -/
inductive DnsRes (α : Type) where
  | ok (answers : List α)
  | nxdomain
  | noAnswer
  | timeout
  | err (s : String)

/-- A loosely-typed WHOIS field value: missing attribute / `None`, a scalar
(carried as its `str()` rendering), or a list (elements carried as their `str()`
renderings; a falsy Python element is modelled as `""`). -/
inductive WVal where
  | null
  | str (s : String)
  | lst (l : List String)

/-- Python truthiness of a `WVal`. -/
def WVal.truthy : WVal → Bool
  | .null => false
  | .str s => s ≠ ""
  | .lst l => !l.isEmpty

namespace TldChecker

/-- The TLD catalog literal of `domain_tld_checker.py`. -/
def TLDS_RAW : List String :=
  [".com", ".org", ".net", ".co", ".info", ".biz", ".us", ".ca", ".uk",
   ".io", ".ai", ".tech", ".app", ".online", ".site", ".website", ".space",
   ".store", ".xyz", ".club", ".vip", ".link", ".click", ".top", ".loan",
   ".support", ".help", ".services", ".company", ".solutions", ".agency",
   ".email", ".cc", ".tv", ".me", ".asia", ".mobi", ".pro", ".name",
   ".de", ".fr", ".au", ".nl", ".ru", ".cn", ".br", ".in", ".jp",
   ".live", ".shop", ".world", ".guru", ".news", ".today", ".ltd", ".group"]

/-- `TLDS_TO_CHECK = sorted(list(set([t if t.startswith(".") else "." + t ...])))`. -/
def TLDS_TO_CHECK : List String :=
  pySortedSet (TLDS_RAW.map (fun t => if ['.'].isPrefixOf t.toList then t else "." ++ t))

/-- The triple returned by `tldextract.extract` on the lower-cased, stripped
input.  `tldextract` is an external library, so the triple is an input of the
model. -/
structure Extract where
  subdomain : String
  domain : String
  suffix : String

/-- `extract_meaningful_base`, given the `tldextract` triple of the input. -/
def extract_meaningful_base (ext : Extract) : String :=
  if ext.subdomain ≠ "" then ext.subdomain ++ "." ++ ext.domain else ext.domain

/-- The nested helper `get_val` of `get_domain_variant_info`: attribute lookup
on the WHOIS record (modelled by the function `attrs`; a missing attribute and a
`None` value are both `WVal.null`), Python truthiness, then list flattening.
The `is_list` argument is accepted and never read, exactly as in the source. -/
def get_val (attrs : String → WVal) (attr : String) (is_list : Bool) (is_date : Bool) : String :=
  match attrs attr with
  | .null => "N/A"
  | .str s => if s ≠ "" then trimStr s else "N/A"
  | .lst l =>
    if !l.isEmpty then
      if is_date then l.headD ""
      else String.intercalate ", " (pySortedSet ((l.filter (fun v => v ≠ "")).map trimStr))
    else "N/A"

/-- Step 1 of `get_domain_variant_info`: the A/AAAA try-block.  Returns the
`IP Addresses` field, the `DNS Resolves (A/AAAA)` field, `dns_resolved_ip`, and
the strings appended to `dns_errors`.  An exception in either resolve aborts the
block before the fields are assigned, so an AAAA failure discards the A answers. -/
def ipBlock (resA resAAAA : DnsRes String) : String × String × Bool × List String :=
  match resA with
  | .ok la =>
    match resAAAA with
    | .ok laaaa =>
      let ips := la ++ laaaa
      if !ips.isEmpty then
        (String.intercalate ", " (pySortedSet ips), "Yes", true, [])
      else ("N/A", "No", false, [])
    | .nxdomain => ("N/A", "No", false, ["DNS NXDOMAIN (IP)"])
    | .noAnswer => ("N/A", "No", false, ["DNS NoAnswer (IP)"])
    | .timeout => ("N/A", "No", false, ["DNS Timeout (IP)"])
    | .err n => ("N/A", "No", false, ["DNS IP Error: " ++ n])
  | .nxdomain => ("N/A", "No", false, ["DNS NXDOMAIN (IP)"])
  | .noAnswer => ("N/A", "No", false, ["DNS NoAnswer (IP)"])
  | .timeout => ("N/A", "No", false, ["DNS Timeout (IP)"])
  | .err n => ("N/A", "No", false, ["DNS IP Error: " ++ n])

/-- Step 2: the NS try-block.  Answer targets are `to_text()` strings, stripped
of trailing dots.  NXDOMAIN is only recorded when the IP lookup did not resolve. -/
def nsBlock (resNS : DnsRes String) (dns_resolved_ip : Bool) : String × Bool × List String :=
  match resNS with
  | .ok l =>
    let names := l.map rstripDots
    if !names.isEmpty then
      (String.intercalate ", " (pySortedSet names), true, [])
    else ("N/A", false, [])
  | .nxdomain => ("N/A", false, if dns_resolved_ip then [] else ["DNS NXDOMAIN (NS)"])
  | .noAnswer => ("N/A", false, ["DNS NoAnswer (NS)"])
  | .timeout => ("N/A", false, ["DNS Timeout (NS)"])
  | .err n => ("N/A", false, ["DNS NS Error: " ++ n])

/-- The MX entry rendering `f"{rdata.preference} {rdata.exchange.to_text().rstrip(chr(46))}"`. -/
def renderMx (pe : Nat × String) : String :=
  toString pe.1 ++ " " ++ rstripDots pe.2

/-- The sort key `lambda x: (int(x.split()[0]), x.split()[1])` of the MX sort,
on an entry with at least two words. -/
def mxKey (s : String) : Nat × String :=
  (natOfChars ((pysplit s).headD "").toList, ((pysplit s).drop 1).headD "")

/-- Python tuple order on parsed MX keys: preference ascending, then exchange
name ascending (Python string order). -/
def mxKeyLe (a b : Nat × String) : Prop :=
  a.1 < b.1 ∨ (a.1 = b.1 ∧ charsLe a.2.toList b.2.toList = true)

instance : DecidableRel mxKeyLe := fun a b =>
  inferInstanceAs (Decidable (a.1 < b.1 ∨ (a.1 = b.1 ∧ charsLe a.2.toList b.2.toList = true)))

/-- The order in which Python sorts the rendered MX entries. -/
def mxLe (s t : String) : Prop := mxKeyLe (mxKey s) (mxKey t)

instance : DecidableRel mxLe := fun s t =>
  inferInstanceAs (Decidable (mxKeyLe (mxKey s) (mxKey t)))

instance : IsTrans String mxLe := ⟨by
  intro a b c hab hbc
  unfold mxLe mxKeyLe at *
  rcases hab with h | ⟨h1, h2⟩ <;> rcases hbc with h' | ⟨h1', h2'⟩
  · exact Or.inl (h.trans h')
  · exact Or.inl (h1' ▸ h)
  · exact Or.inl (h1 ▸ h')
  · exact Or.inr ⟨h1.trans h1', charsLe_trans _ _ _ h2 h2'⟩⟩

instance : IsTotal String mxLe := ⟨by
  intro a b
  unfold mxLe mxKeyLe
  rcases Nat.lt_trichotomy (mxKey a).1 (mxKey b).1 with h | h | h
  · exact Or.inl (Or.inl h)
  · rcases charsLe_total (mxKey a).2.toList (mxKey b).2.toList with h2 | h2
    · exact Or.inl (Or.inr ⟨h, h2⟩)
    · exact Or.inr (Or.inr ⟨h.symm, h2⟩)
  · exact Or.inr (Or.inl h)⟩

/-- Step 3: the MX try-block.  Python sorts the rendered entries with the key
above; an exchange that strips to the empty string leaves its entry with a
single word, so the key lambda raises IndexError inside `sort`, caught by the
generic handler before the field is assigned.  NXDOMAIN is only recorded when
neither the IP nor the NS lookup resolved. -/
def mxBlock (resMX : DnsRes (Nat × String)) (dns_resolved_ip dns_resolved_ns : Bool) :
    String × List String :=
  match resMX with
  | .ok l =>
    let entries := l.map renderMx
    if !entries.isEmpty then
      if entries.any (fun s => (pysplit s).length < 2) then
        ("N/A", ["DNS MX Error: IndexError"])
      else (String.intercalate ", " (List.insertionSort mxLe entries), [])
    else ("N/A", [])
  | .nxdomain =>
    ("N/A", if dns_resolved_ip || dns_resolved_ns then [] else ["DNS NXDOMAIN (MX)"])
  | .noAnswer => ("N/A", ["DNS NoAnswer (MX)"])
  | .timeout => ("N/A", ["DNS Timeout (MX)"])
  | .err n => ("N/A", ["DNS MX Error: " ++ n])

/-- The dict-like object returned by `whois.whois`: its attributes (missing ↦
`WVal.null`), its `text`, and its own Python truthiness (non-empty dict). -/
structure TWRec where
  attrs : String → WVal
  text : String
  objTruthy : Bool

/-- Outcome of the `whois.whois` call in the TLD checker; a `None` return is
`ok` with `objTruthy = false`. -/
inductive TWhoisOutcome where
  | ok (w : TWRec)
  | pywhoisError (msg : String)
  | connReset
  | sockTimeout
  | attrError (msg : String)
  | exn (tyName : String) (msg : String)

/-- The six WHOIS output fields of the TLD checker. -/
structure WhoisFields where
  creation : String
  updated : String
  expiration : String
  registrar : String
  status : String
  org : String

/-- The WHOIS step of `get_domain_variant_info` (lines 121-180): the WHOIS query
runs only when `proceed` holds; the else-branch writes the skip note.  Returns
the six fields and the strings appended to `whois_errors`. -/
def whoisBlock (proceed : Bool) (res : TWhoisOutcome)
    (dns_resolved_ip dns_resolved_ns : Bool) : WhoisFields × List String :=
  let na : WhoisFields := ⟨"N/A", "N/A", "N/A", "N/A", "N/A", "N/A"⟩
  if proceed then
    match res with
    | .ok w =>
      -- `w.domain_name or w.get(...)` reads the same key twice; one lookup models both.
      if w.objTruthy && ((w.attrs "domain_name").truthy || w.text ≠ "") then
        let org0 := get_val w.attrs "org" false false
        let fields : WhoisFields :=
          ⟨get_val w.attrs "creation_date" false true,
           get_val w.attrs "updated_date" false true,
           get_val w.attrs "expiration_date" false true,
           get_val w.attrs "registrar" false false,
           get_val w.attrs "status" true false,
           if org0 = "N/A" then get_val w.attrs "registrant_organization" false false else org0⟩
        let gv := get_val w.attrs "domain_name" false false
        let errs :=
          if !(dns_resolved_ip || dns_resolved_ns) then
            if gv = "N/A" || gv = "" then ["WHOIS data sparse or domain may be available."]
            else ["WHOIS found, but no active DNS (A/AAAA or NS)."]
          else []
        (fields, errs)
      else
        (na, if !(dns_resolved_ip || dns_resolved_ns) then
               ["Domain likely not registered (WHOIS empty/no match)."]
             else ["DNS resolves, but WHOIS lookup failed or returned no data."])
    | .pywhoisError msg =>
      let low := lowerStr msg
      if containsStr low "no match" || containsStr low "not found" || containsStr low "no entries"
          || containsStr low "available" || containsStr low "invalid query" then
        (na, ["WHOIS: No match/Not found (likely available or invalid query)."])
      else (na, ["WHOIS Error: " ++ takeStr 100 msg])
    | .connReset => (na, ["WHOIS Error: ConnectionResetError"])
    | .sockTimeout => (na, ["WHOIS Error: Socket Timeout"])
    | .attrError msg => (na, ["WHOIS AttrError: " ++ takeStr 50 msg ++ " (data structure unexpected)"])
    | .exn ty msg => (na, ["WHOIS General Error: " ++ ty ++ " - " ++ takeStr 50 msg])
  else
    (na, ["Skipped WHOIS due to DNS indicating non-existence."])

/-- The network responses for one domain variant. -/
structure VOracle where
  a : DnsRes String
  aaaa : DnsRes String
  ns : DnsRes String
  mx : DnsRes (Nat × String)
  whois : TWhoisOutcome

/-- `get_domain_variant_info`: the per-variant info dict, in insertion order,
together with the flag telling whether `whois.whois` was called. -/
def get_domain_variant_info (domain_variant : String) (o : VOracle) :
    List (String × String) × Bool :=
  let (ipField, resolvesField, rip, errs1) := ipBlock o.a o.aaaa
  let (nsField, rns, errs2) := nsBlock o.ns rip
  let (mxField, errs3) := mxBlock o.mx rip rns
  let dns_errors := errs1 ++ errs2 ++ errs3
  let proceed := rip || rns ||
    !(dns_errors.any (fun e => containsStr e "NXDOMAIN (IP)" && containsStr e "NXDOMAIN (NS)"))
  let (wf, whois_errors) := whoisBlock proceed o.whois rip rns
  let dnsNotes := if !dns_errors.isEmpty then
      ["DNS: " ++ String.intercalate "; " (pySortedSet dns_errors)] else []
  let whoisNotes := if !whois_errors.isEmpty then
      ["WHOIS: " ++ String.intercalate "; " (pySortedSet whois_errors)] else []
  let all_notes := dnsNotes ++ whoisNotes
  let notes := if !all_notes.isEmpty then String.intercalate " | " all_notes else "OK"
  ([("Full Domain Queried", domain_variant),
    ("DNS Resolves (A/AAAA)", resolvesField),
    ("IP Addresses", ipField),
    ("Name Servers (NS)", nsField),
    ("Mail Servers (MX)", mxField),
    ("WHOIS Creation Date", wf.creation),
    ("WHOIS Updated Date", wf.updated),
    ("WHOIS Expiration Date", wf.expiration),
    ("WHOIS Registrar", wf.registrar),
    ("WHOIS Domain Status", wf.status),
    ("WHOIS Registrant Org", wf.org),
    ("WHOIS Notes/Errors", notes)], proceed)

/-- The declared output header of the TLD checker. -/
def output_header : List String :=
  ["Original Input Domain", "Base Name Extracted", "TLD Variant Checked", "Full Domain Queried",
   "DNS Resolves (A/AAAA)", "IP Addresses", "Name Servers (NS)", "Mail Servers (MX)",
   "WHOIS Creation Date", "WHOIS Updated Date", "WHOIS Expiration Date", "WHOIS Registrar",
   "WHOIS Domain Status", "WHOIS Registrant Org", "WHOIS Notes/Errors"]

/-- `csv.DictWriter` row assembly: one cell per header column, in header order,
missing keys filled with the default `restval`, the empty string. -/
def csvRow (dict : List (String × String)) : List String :=
  output_header.map (fun h => (dict.lookup h).getD "")

/-- The error row appended when `extract_meaningful_base` returns empty. -/
def errorRow (orig : String) : List String :=
  csvRow [("Original Input Domain", orig), ("Base Name Extracted", "Error"),
          ("WHOIS Notes/Errors", "Could not extract base name from input.")]

/-- A regular result row for one (input, base, tld) triple. -/
def variantRow (orig base tld : String) (o : VOracle) : List String :=
  csvRow ([("Original Input Domain", orig), ("Base Name Extracted", base),
           ("TLD Variant Checked", tld)] ++ (get_domain_variant_info (base ++ tld) o).1)

/-- The `results_data` rows built by `main`: `ex` stands for `tldextract.extract`
applied to the lower-cased stripped input, `net` supplies the network responses
for each full domain queried. -/
def main_results_data (ex : String → Extract) (net : String → VOracle)
    (original_domains : List String) : List (List String) :=
  original_domains.flatMap (fun od =>
    let base := extract_meaningful_base (ex od)
    if base = "" then [errorRow od]
    else TLDS_TO_CHECK.map (fun tld => variantRow od base tld (net (base ++ tld))))

end TldChecker

namespace InfoCollector

/-- Python truthiness of an optional string field: `none` models an absent
attribute or a `None` value, `some ""` a present but falsy value. -/
def optTruthy (o : Option String) : Bool := (o.getD "") ≠ ""

/-- The pervasive pattern `x if x else "N/A"` on an optional field. -/
def orNA : Option String → String
  | some s => if s ≠ "" then s else "N/A"
  | none => "N/A"

/-- Python `a or b` on two optional string values. -/
def pyOrS (a b : Option String) : Option String := if optTruthy a then a else b

/-- The date pattern of `get_domain_info`: a list keeps its first element (or
becomes `None`), then `str(d) if d else "N/A"`. -/
def dateStr : WVal → String
  | .null => "N/A"
  | .str s => if s ≠ "" then s else "N/A"
  | .lst [] => "N/A"
  | .lst (h :: _) => if h ≠ "" then h else "N/A"

/-- `w.registrar.split(",")[0].lower().replace(" ", "").replace(".", "")`: the
first comma-delimited segment, lower-cased, spaces and periods removed. -/
def regNameOf (r : String) : String :=
  ⟨((r.toList.takeWhile (fun c => c ≠ ',')).map Char.toLower).filter
      (fun c => !(c = ' ' || c = '.'))⟩

/-- The WHOIS record of the collector.  Attributes the code reads directly or
through `hasattr` are explicit optional fields; `none` models both an absent
attribute and a `None` value (the code treats them alike: every use is guarded
by truthiness or by `hasattr` plus truthiness). -/
structure WhoisRec where
  domain_name : WVal
  registry_domain_id : Option String
  whois_server : Option String
  registrar_url : Option String
  registrar : Option String
  updated_date : WVal
  creation_date : WVal
  expiration_date : WVal
  iana_id : Option String
  abuse_contact_email : Option String
  abuse_contact_phone : Option String
  status : WVal
  registrant_name : Option String
  admin_name : Option String
  tech_name : Option String
  name : Option String
  registrant_organization : Option String
  admin_organization : Option String
  tech_organization : Option String
  org : Option String
  registrant_email : Option String
  admin_email : Option String
  tech_email : Option String
  name_servers : List String
  text : String

/-- Lines 24-32: explicit `registrar_url` attribute if present and truthy, else
the synthesized guess from the registrar name, else the initial `"N/A"`. -/
def registrarUrlField (w : WhoisRec) : String :=
  if optTruthy w.registrar_url then w.registrar_url.getD ""
  else if optTruthy w.registrar then
    let m := regNameOf (w.registrar.getD "")
    if m ≠ "" then "https://www." ++ m ++ ".com" else "N/A"
  else "N/A"

/-- Line 20: a scalar domain name is kept, a list is comma-joined. -/
def domainNameStr : WVal → String
  | .str s => s
  | .lst l => String.intercalate ", " l
  | .null => ""

/-- Lines 54-57: a status list is comma-joined in the order received, with no
sorting and no de-duplication; a scalar is stringified; falsy becomes `"N/A"`. -/
def statusStr : WVal → String
  | .lst l => if !l.isEmpty then String.intercalate ", " l else "N/A"
  | .str s => if s ≠ "" then s else "N/A"
  | .null => "N/A"

/-- Lines 63-74: the registrant falls back to the generic `name`/`org`
attributes; each of the three contact blocks appends only its truthy lines. -/
def contactLines (w : WhoisRec) : List String :=
  let rname := pyOrS w.registrant_name w.name
  let rorg := pyOrS w.registrant_organization w.org
  (if optTruthy rname then ["Registrant Name: " ++ rname.getD ""] else []) ++
  (if optTruthy rorg then ["Registrant Organization: " ++ rorg.getD ""] else []) ++
  (if optTruthy w.registrant_email then ["Registrant Email: " ++ w.registrant_email.getD ""] else []) ++
  (if optTruthy w.admin_name then ["Admin Name: " ++ w.admin_name.getD ""] else []) ++
  (if optTruthy w.admin_organization then ["Admin Organization: " ++ w.admin_organization.getD ""] else []) ++
  (if optTruthy w.admin_email then ["Admin Email: " ++ w.admin_email.getD ""] else []) ++
  (if optTruthy w.tech_name then ["Tech Name: " ++ w.tech_name.getD ""] else []) ++
  (if optTruthy w.tech_organization then ["Tech Organization: " ++ w.tech_organization.getD ""] else []) ++
  (if optTruthy w.tech_email then ["Tech Email: " ++ w.tech_email.getD ""] else [])

/-- The `info_parts` lines of the successful WHOIS branch (lines 20-80). -/
def whoisInfoLines (w : WhoisRec) : List String :=
  ["Domain Name: " ++ domainNameStr w.domain_name,
   "Registry Domain ID: " ++ orNA w.registry_domain_id,
   "Registrar WHOIS Server: " ++ orNA w.whois_server,
   "Registrar URL: " ++ registrarUrlField w,
   "Updated Date: " ++ dateStr w.updated_date,
   "Creation Date: " ++ dateStr w.creation_date,
   "Registrar Registration Expiration Date: " ++ dateStr w.expiration_date,
   "Registrar: " ++ orNA w.registrar,
   "Registrar IANA ID: " ++ orNA w.iana_id,
   "Registrar Abuse Contact Email: " ++ orNA w.abuse_contact_email,
   "Registrar Abuse Contact Phone: " ++ orNA w.abuse_contact_phone,
   "Domain Status: " ++ statusStr w.status]
  ++ contactLines w
  ++ [if !w.name_servers.isEmpty then "Name Server: " ++ String.intercalate ", " w.name_servers
      else "Name Server: N/A"]

/-- Outcome of `whois.whois` in the collector; `empty` is a falsy return. -/
inductive WhoisOutcome where
  | ok (w : WhoisRec)
  | empty
  | pywhoisError (msg : String)
  | attrError (msg : String)
  | exn (msg : String)

/-- The WHOIS try-block of `get_domain_info` (lines 15-98): the `info_parts`
lines and the `errors` entries it contributes. -/
def whoisSection (d : String) (res : WhoisOutcome) : List String × List String :=
  match res with
  | .ok w =>
    if w.domain_name.truthy then (whoisInfoLines w, [])
    else
      (["WHOIS information incomplete or lookup failed."] ++
        (if w.text ≠ "" then ["Raw WHOIS response might contain partial data or error message."]
         else []), [])
  | .empty => (["WHOIS lookup failed to return any data."], ["WHOIS lookup failed for " ++ d])
  | .pywhoisError m => (["WHOIS Error: " ++ m], ["WHOIS lookup error for " ++ d ++ ": " ++ m])
  | .attrError m =>
    (["WHOIS Attribute Error: " ++ m ++ " (data might be incomplete or structured differently)"],
     ["WHOIS attribute error for " ++ d ++ ": " ++ m])
  | .exn m => (["WHOIS General Error: " ++ m], ["General WHOIS processing error for " ++ d ++ ": " ++ m])

/-- The A/AAAA try-block of the collector (lines 105-124): the combined answers
are joined in the order received, with no de-duplication and no sorting; an
exception in either resolve aborts the block before its line is appended. -/
def ipSection (d : String) (resA resAAAA : DnsRes String) : List String × List String :=
  match resA with
  | .ok la =>
    match resAAAA with
    | .ok laaaa =>
      let ips := la ++ laaaa
      (["Server IP (A/AAAA): " ++
          (if !ips.isEmpty then String.intercalate ", " ips else "No A/AAAA record found")], [])
    | .nxdomain =>
      (["Server IP (A/AAAA): NXDOMAIN (Domain does not exist)"],
       ["DNS NXDOMAIN for " ++ d ++ " (A/AAAA)"])
    | .noAnswer =>
      (["Server IP (A/AAAA): No A/AAAA record found"], ["DNS NoAnswer for " ++ d ++ " (A/AAAA)"])
    | .timeout =>
      (["Server IP (A/AAAA): DNS Timeout"], ["DNS Timeout for " ++ d ++ " (A/AAAA)"])
    | .err m =>
      (["Server IP (A/AAAA) Error: " ++ m], ["DNS A/AAAA lookup error for " ++ d ++ ": " ++ m])
  | .nxdomain =>
    (["Server IP (A/AAAA): NXDOMAIN (Domain does not exist)"],
     ["DNS NXDOMAIN for " ++ d ++ " (A/AAAA)"])
  | .noAnswer =>
    (["Server IP (A/AAAA): No A/AAAA record found"], ["DNS NoAnswer for " ++ d ++ " (A/AAAA)"])
  | .timeout =>
    (["Server IP (A/AAAA): DNS Timeout"], ["DNS Timeout for " ++ d ++ " (A/AAAA)"])
  | .err m =>
    (["Server IP (A/AAAA) Error: " ++ m], ["DNS A/AAAA lookup error for " ++ d ++ ": " ++ m])

/-- The MX try-block of the collector (lines 126-144): entries are rendered as
`f"{preference} {exchange}"` (no trailing-dot strip) and joined in the order
received, with no sorting. -/
def mxSection (d : String) (resMX : DnsRes (Nat × String)) : List String × List String :=
  match resMX with
  | .ok l =>
    let entries := l.map (fun pe => toString pe.1 ++ " " ++ pe.2)
    (["Mail Server (MX): " ++
        (if !entries.isEmpty then String.intercalate ", " entries else "No MX record found")], [])
  | .nxdomain =>
    (["Mail Server (MX): NXDOMAIN (Domain does not exist)"], ["DNS NXDOMAIN for " ++ d ++ " (MX)"])
  | .noAnswer =>
    (["Mail Server (MX): No MX record found"], ["DNS NoAnswer for " ++ d ++ " (MX)"])
  | .timeout =>
    (["Mail Server (MX): DNS Timeout"], ["DNS Timeout for " ++ d ++ " (MX)"])
  | .err m =>
    (["Mail Server (MX) Error: " ++ m], ["DNS MX lookup error for " ++ d ++ ": " ++ m])

/-- The network responses for one domain in the collector. -/
structure DomOracle where
  whois : WhoisOutcome
  a : DnsRes String
  aaaa : DnsRes String
  mx : DnsRes (Nat × String)

/-- The `info_parts` list accumulated by `get_domain_info`. -/
def info_parts (d : String) (o : DomOracle) : List String :=
  (whoisSection d o.whois).1 ++ (ipSection d o.a o.aaaa).1 ++ (mxSection d o.mx).1

/-- The `errors` list accumulated by `get_domain_info`. -/
def errorsOf (d : String) (o : DomOracle) : List String :=
  (whoisSection d o.whois).2 ++ (ipSection d o.a o.aaaa).2 ++ (mxSection d o.mx).2

/-- `get_domain_info`: the final Information blob (lines 146-151). -/
def get_domain_info (d : String) (o : DomOracle) : String :=
  let parts := info_parts d o
  let errs := errorsOf d o
  if parts.isEmpty && !errs.isEmpty then
    "Error gathering information:\n" ++ String.intercalate "\n" errs
  else if !errs.isEmpty then
    String.intercalate "\n" parts ++ "\n\nEncountered issues:\n" ++ String.intercalate "\n" errs
  else String.intercalate "\n" parts

/-- One loop iteration of `process_csv_files` (lines 170-201): the data rows
written for this input row, and whether any network query was issued
(`get_domain_info` called). -/
def rowStep (net : String → DomOracle) (row : List String) : List (List String) × Bool :=
  match row with
  | [] => ([], false)
  | c :: _ =>
    let d := lowerStr (trimStr c)
    if d = "" then ([["EMPTY_ROW", "No domain provided in this row."]], false)
    else if !(charIn d '.') || charIn d ' ' || 253 < d.toList.length then
      ([[d, "Invalid domain format"]], false)
    else ([[d, get_domain_info d (net d)]], true)

/-- The data rows written by `process_csv_files` (header row excluded). -/
def process_csv_files (net : String → DomOracle) (rows : List (List String)) :
    List (List String) :=
  rows.flatMap (fun r => (rowStep net r).1)

/-- The number of input rows on which the collector actually issues network
queries, i.e. the valid input queries: non-empty row, non-blank first cell,
format validation passed. -/
def validQueryCount (rows : List (List String)) : Nat :=
  (rows.filter (fun r =>
    match r with
    | [] => false
    | c :: _ =>
      let d := lowerStr (trimStr c)
      d ≠ "" && (charIn d '.' && !(charIn d ' ') && d.toList.length ≤ 253))).length

/-- A network stub used by concrete evaluations: WHOIS falsy, all DNS NXDOMAIN. -/
def noNet : DomOracle := ⟨.empty, .nxdomain, .nxdomain, .nxdomain⟩

end InfoCollector

/-- A TLD-checker oracle on which both the IP and the NS lookup (and MX) return
the authoritative NXDOMAIN and the WHOIS transport would report no match. -/
def bothNxOracle : TldChecker.VOracle :=
  ⟨.nxdomain, .nxdomain, .nxdomain, .nxdomain, .pywhoisError "No match for domain"⟩

/-- A collector WHOIS record with the given domain name, registrar URL,
registrar and status, every other attribute absent. -/
def mkWRec (dn : WVal) (rurl reg : Option String) (st : WVal) : InfoCollector.WhoisRec :=
  ⟨dn, none, none, rurl, reg, .null, .null, .null, none, none, none, st,
   none, none, none, none, none, none, none, none, none, none, none, [], ""⟩

/-- The length of a `DictWriter` row is the length of the header. -/
theorem csvRow_length (dict : List (String × String)) :
    (TldChecker.csvRow dict).length = TldChecker.output_header.length :=
  List.length_map _ _

/-- C1 (code_bug): with DNS proving non-existence on both the IP and the NS
lookup, `get_domain_variant_info` still performs the WHOIS query, and the skip
note never appears in the notes field.  The guard of line 123 tests each single
error string for both substrings `NXDOMAIN (IP)` and `NXDOMAIN (NS)`, which no
error string ever contains, so the skip branch of lines 179-180 is unreachable;
the claim (and the source comments at lines 122 and 179) require the WHOIS
query to be skipped exactly here, with the note emitted. -/
theorem c1_whois_never_skipped :
    (TldChecker.get_domain_variant_info "brandx.com" bothNxOracle).2 = true ∧
    containsStr
      (((TldChecker.get_domain_variant_info "brandx.com" bothNxOracle).1.lookup
          "WHOIS Notes/Errors").getD "")
      "Skipped WHOIS due to DNS indicating non-existence" = false := by
  exact ⟨rfl, by decide⟩

/-- C7 (confirmed): `extract_meaningful_base` dot-joins the subdomain labels
(if any) with the domain label, stripping the public suffix; on the examples of
the spec it yields `sub.example` and `example`; whenever the extractor
identifies no domain label (and hence no subdomain: `tldextract` never reports a
subdomain without a domain) the result is empty, and the main loop then records
exactly one error row for that input and continues with the rest of the batch. -/
theorem c7_extract_base (ex : String → TldChecker.Extract) (net : String → TldChecker.VOracle)
    (pre post : List String) (d : String)
    (hex : ∀ s, (ex s).domain = "" → (ex s).subdomain = "")
    (hd : (ex d).domain = "") :
    TldChecker.extract_meaningful_base ⟨"sub", "example", "co.uk"⟩ = "sub.example" ∧
    TldChecker.extract_meaningful_base ⟨"", "example", "com"⟩ = "example" ∧
    TldChecker.extract_meaningful_base (ex d) = "" ∧
    TldChecker.main_results_data ex net (pre ++ d :: post) =
      TldChecker.main_results_data ex net pre ++
        TldChecker.errorRow d :: TldChecker.main_results_data ex net post := by
  have hbase : TldChecker.extract_meaningful_base (ex d) = "" := by
    unfold TldChecker.extract_meaningful_base
    rw [hex d hd, hd]
    simp
  refine ⟨by decide, by decide, hbase, ?_⟩
  unfold TldChecker.main_results_data
  rw [List.flatMap_append, List.flatMap_cons]
  simp [hbase]

/-- Witness for `c7_extract_base` at a concrete extractor that identifies no
domain label anywhere. -/
theorem c7_extract_base_witness :
    TldChecker.extract_meaningful_base ⟨"sub", "example", "co.uk"⟩ = "sub.example" ∧
    TldChecker.extract_meaningful_base ⟨"", "example", "com"⟩ = "example" ∧
    TldChecker.extract_meaningful_base ((fun _ => (⟨"", "", ""⟩ : TldChecker.Extract)) "??") = "" ∧
    TldChecker.main_results_data (fun _ => ⟨"", "", ""⟩) (fun _ => bothNxOracle) ([] ++ "??" :: []) =
      TldChecker.main_results_data (fun _ => ⟨"", "", ""⟩) (fun _ => bothNxOracle) [] ++
        TldChecker.errorRow "??" ::
          TldChecker.main_results_data (fun _ => ⟨"", "", ""⟩) (fun _ => bothNxOracle) [] :=
  c7_extract_base (fun _ => ⟨"", "", ""⟩) (fun _ => bothNxOracle) [] [] "??"
    (fun _ _ => rfl) rfl

/-- C10 (confirmed): a fully empty input CSV row produces no output row and the
batch continues with the remaining rows, while a non-empty row whose first cell
is blank after trimming produces exactly the `EMPTY_ROW` placeholder row; in
neither case is `get_domain_info` (and hence any WHOIS/DNS query) invoked. -/
theorem c10_empty_row_handling (net : String → InfoCollector.DomOracle)
    (rest : List (List String)) (c : String) (cs : List String)
    (h : lowerStr (trimStr c) = "") :
    InfoCollector.rowStep net [] = ([], false) ∧
    InfoCollector.rowStep net (c :: cs) =
      ([["EMPTY_ROW", "No domain provided in this row."]], false) ∧
    InfoCollector.process_csv_files net ([] :: rest) =
      InfoCollector.process_csv_files net rest ∧
    InfoCollector.process_csv_files net ((c :: cs) :: rest) =
      ["EMPTY_ROW", "No domain provided in this row."] ::
        InfoCollector.process_csv_files net rest := by
  have h2 : InfoCollector.rowStep net (c :: cs) =
      ([["EMPTY_ROW", "No domain provided in this row."]], false) := by
    unfold InfoCollector.rowStep
    simp [h]
  refine ⟨rfl, h2, ?_, ?_⟩
  · unfold InfoCollector.process_csv_files
    rw [List.flatMap_cons]
    rfl
  · unfold InfoCollector.process_csv_files
    rw [List.flatMap_cons]
    show (InfoCollector.rowStep net (c :: cs)).1 ++ _ = _
    rw [h2]
    rfl

/-- Witness for `c10_empty_row_handling` on a first cell that trims to empty. -/
theorem c10_empty_row_handling_witness :
    InfoCollector.rowStep (fun _ => InfoCollector.noNet) [] = ([], false) ∧
    InfoCollector.rowStep (fun _ => InfoCollector.noNet) (" " :: ["x"]) =
      ([["EMPTY_ROW", "No domain provided in this row."]], false) ∧
    InfoCollector.process_csv_files (fun _ => InfoCollector.noNet) ([] :: [["ok.com"]]) =
      InfoCollector.process_csv_files (fun _ => InfoCollector.noNet) [["ok.com"]] ∧
    InfoCollector.process_csv_files (fun _ => InfoCollector.noNet) ((" " :: ["x"]) :: [["ok.com"]]) =
      ["EMPTY_ROW", "No domain provided in this row."] ::
        InfoCollector.process_csv_files (fun _ => InfoCollector.noNet) [["ok.com"]] :=
  c10_empty_row_handling (fun _ => InfoCollector.noNet) [["ok.com"]] " " ["x"] (by decide)

/-- C8 counterexample: the input `a<TAB>b.com` contains internal whitespace,
yet the collector does not flag it `Invalid domain format` and does perform the
network queries: the validation only tests for the space character. -/
theorem c8_tab_whitespace_counterexample :
    lowerStr (trimStr "a\tb.com") = "a\tb.com" ∧
    '\t'.isWhitespace = true ∧
    charIn "a\tb.com" '\t' = true ∧
    (InfoCollector.rowStep (fun _ => InfoCollector.noNet) ["a\tb.com"]).2 = true ∧
    (InfoCollector.rowStep (fun _ => InfoCollector.noNet) ["a\tb.com"]).1 ≠
      [["a\tb.com", "Invalid domain format"]] := by
  refine ⟨by decide, by decide, by decide, by decide, by decide⟩

/-- C8 (amended): a non-blank input whose trimmed lower-cased form lacks a dot,
contains a space character, or exceeds 253 characters is flagged with exactly
one `Invalid domain format` row and no network query; whitespace other than the
space character is not caught by the validation. -/
theorem c8_invalid_format_amended (net : String → InfoCollector.DomOracle)
    (c : String) (cs : List String)
    (hne : lowerStr (trimStr c) ≠ "")
    (hbad : charIn (lowerStr (trimStr c)) '.' = false ∨
      charIn (lowerStr (trimStr c)) ' ' = true ∨
      253 < (lowerStr (trimStr c)).length) :
    InfoCollector.rowStep net (c :: cs) =
      ([[lowerStr (trimStr c), "Invalid domain format"]], false) := by
  unfold InfoCollector.rowStep
  rcases hbad with h | h | h <;> simp [hne, h]

/-- Witness for `c8_invalid_format_amended` on an input with no dot. -/
theorem c8_invalid_format_amended_witness :
    InfoCollector.rowStep (fun _ => InfoCollector.noNet) ["nodot"] =
      ([["nodot", "Invalid domain format"]], false) :=
  c8_invalid_format_amended (fun _ => InfoCollector.noNet) "nodot" []
    (by decide) (Or.inl (by decide))

/-- Each collector input row contributes no output row when fully empty, and
exactly one otherwise. -/
theorem rowStep_rows_length (net : String → InfoCollector.DomOracle) (r : List String) :
    ((InfoCollector.rowStep net r).1).length = if r.isEmpty then 0 else 1 := by
  cases r with
  | nil => rfl
  | cons c cs =>
    unfold InfoCollector.rowStep
    by_cases h1 : lowerStr (trimStr c) = ""
    · simp [h1]
    · by_cases h2 : (charIn (lowerStr (trimStr c)) '.' = false ∨
          charIn (lowerStr (trimStr c)) ' ' = true) ∨ 253 < (lowerStr (trimStr c)).length
      · simp [h1, h2]
      · simp [h1, h2]

/-- Every output row the collector writes has exactly the two declared columns. -/
theorem rowStep_rows_width (net : String → InfoCollector.DomOracle) (r : List String) :
    ∀ x ∈ (InfoCollector.rowStep net r).1, x.length = 2 := by
  cases r with
  | nil => intro x hx; simp [InfoCollector.rowStep] at hx
  | cons c cs =>
    intro x hx
    unfold InfoCollector.rowStep at hx
    by_cases h1 : lowerStr (trimStr c) = ""
    · simp [h1] at hx
      simp [hx]
    · by_cases h2 : (charIn (lowerStr (trimStr c)) '.' = false ∨
          charIn (lowerStr (trimStr c)) ' ' = true) ∨ 253 < (lowerStr (trimStr c)).length
      · simp [h1, h2] at hx
        simp [hx]
      · simp [h1, h2] at hx
        simp [hx]

/-- C2 (amended): the TLD checker writes one row per (base, TLD) pair plus one
error row per input whose base name cannot be extracted, and each of its rows
has exactly the declared header columns in declared order; the collector writes
one row per non-empty input CSV row — rows for valid domains, `EMPTY_ROW`
placeholders and `Invalid domain format` rows alike, while fully empty rows are
skipped — and each of its rows has exactly the two declared columns.  Every
field is a string by construction of the embedding. -/
theorem c2_row_count_amended (ex : String → TldChecker.Extract)
    (net : String → TldChecker.VOracle) (inputs : List String)
    (cnet : String → InfoCollector.DomOracle) (rows : List (List String)) :
    (TldChecker.main_results_data ex net inputs).length =
      (inputs.map (fun od =>
        if TldChecker.extract_meaningful_base (ex od) = "" then 1
        else TldChecker.TLDS_TO_CHECK.length)).sum ∧
    (∀ r ∈ TldChecker.main_results_data ex net inputs,
      r.length = TldChecker.output_header.length) ∧
    (InfoCollector.process_csv_files cnet rows).length =
      (rows.filter (fun r => !r.isEmpty)).length ∧
    (∀ r ∈ InfoCollector.process_csv_files cnet rows, r.length = 2) := by
  refine ⟨?_, ?_, ?_, ?_⟩
  · induction inputs with
    | nil => rfl
    | cons od rest ih =>
      unfold TldChecker.main_results_data at ih ⊢
      rw [List.flatMap_cons, List.length_append, ih, List.map_cons, List.sum_cons]
      by_cases hb : TldChecker.extract_meaningful_base (ex od) = ""
      · simp [hb]
      · simp [hb]
  · intro r hr
    unfold TldChecker.main_results_data at hr
    rw [List.mem_flatMap] at hr
    obtain ⟨od, _, hr⟩ := hr
    by_cases hb : TldChecker.extract_meaningful_base (ex od) = ""
    · rw [if_pos hb] at hr
      simp only [List.mem_singleton] at hr
      rw [hr]
      exact csvRow_length _
    · rw [if_neg hb] at hr
      rw [List.mem_map] at hr
      obtain ⟨tld, _, hr⟩ := hr
      rw [← hr]
      exact csvRow_length _
  · induction rows with
    | nil => rfl
    | cons r rest ih =>
      unfold InfoCollector.process_csv_files at ih ⊢
      rw [List.flatMap_cons, List.length_append, ih, List.filter_cons]
      cases r with
      | nil => simp [InfoCollector.rowStep]
      | cons c cs =>
        rw [rowStep_rows_length]
        simp [Nat.add_comm]
  · intro r hr
    unfold InfoCollector.process_csv_files at hr
    rw [List.mem_flatMap] at hr
    obtain ⟨row, _, hr⟩ := hr
    exact rowStep_rows_width cnet row r hr

/-- C2 counterexample: on the single input row `a b.com` (an invalid domain:
it contains a space) the collector still writes one output row, although the
number of valid input queries is zero — so output rows are not one per valid
input domain. -/
theorem c2_invalid_row_counterexample :
    (InfoCollector.process_csv_files (fun _ => InfoCollector.noNet) [["a b.com"]]).length = 1 ∧
    InfoCollector.validQueryCount [["a b.com"]] = 0 ∧
    (InfoCollector.process_csv_files (fun _ => InfoCollector.noNet) [["a b.com"]]).length ≠
      InfoCollector.validQueryCount [["a b.com"]] := by
  refine ⟨by decide, by decide, by decide⟩

/-- C3 counterexample: in the error row the TLD checker writes when base-name
extraction fails, the `WHOIS Registrar` column (header index 11) is the empty
string, not `N/A`: `DictWriter` fills the unset columns with its restval `""`. -/
theorem c3_error_row_empty_counterexample :
    TldChecker.output_header[11]? = some "WHOIS Registrar" ∧
    (TldChecker.errorRow "bad-input")[11]? = some "" ∧
    ("" : String) ≠ "N/A" := by
  refine ⟨by decide, by decide, by decide⟩

/-- C3 (amended): a WHOIS field that is absent, empty, or whose attribute
lookup fails renders as the literal `N/A` through every normalization path of
the info-gathering functions — `get_val` in the TLD checker, and each field
line of the collector blob: registry id, WHOIS server, registrar URL, the
three dates, registrar, IANA id, the two abuse contacts, domain status and
name servers — with the exception of the registrant/admin/tech contact lines,
which the collector omits from the blob entirely when their field is absent;
and the columns the TLD checker leaves unset in its base-name extraction error
rows are written as empty strings, not `N/A`. -/
theorem c3_na_amended (attrs : String → WVal) (a : String) (il idt : Bool)
    (h : (attrs a).truthy = false)
    (w : InfoCollector.WhoisRec) (dom : String) (ra raaaa : DnsRes String)
    (rmx : DnsRes (Nat × String))
    (hdn : w.domain_name.truthy = true) :
    TldChecker.get_val attrs a il idt = "N/A" ∧
    (∀ o : Option String, InfoCollector.optTruthy o = false → InfoCollector.orNA o = "N/A") ∧
    (∀ v : WVal, v.truthy = false → InfoCollector.dateStr v = "N/A") ∧
    (∀ v : WVal, v.truthy = false → InfoCollector.statusStr v = "N/A") ∧
    (w.registry_domain_id = none →
      "Registry Domain ID: N/A" ∈ InfoCollector.info_parts dom ⟨.ok w, ra, raaaa, rmx⟩) ∧
    (w.whois_server = none →
      "Registrar WHOIS Server: N/A" ∈ InfoCollector.info_parts dom ⟨.ok w, ra, raaaa, rmx⟩) ∧
    (InfoCollector.optTruthy w.registrar_url = false → w.registrar = none →
      "Registrar URL: N/A" ∈ InfoCollector.info_parts dom ⟨.ok w, ra, raaaa, rmx⟩) ∧
    (w.updated_date.truthy = false →
      "Updated Date: N/A" ∈ InfoCollector.info_parts dom ⟨.ok w, ra, raaaa, rmx⟩) ∧
    (w.creation_date.truthy = false →
      "Creation Date: N/A" ∈ InfoCollector.info_parts dom ⟨.ok w, ra, raaaa, rmx⟩) ∧
    (w.expiration_date.truthy = false →
      "Registrar Registration Expiration Date: N/A" ∈
        InfoCollector.info_parts dom ⟨.ok w, ra, raaaa, rmx⟩) ∧
    (w.registrar = none →
      "Registrar: N/A" ∈ InfoCollector.info_parts dom ⟨.ok w, ra, raaaa, rmx⟩) ∧
    (w.iana_id = none →
      "Registrar IANA ID: N/A" ∈ InfoCollector.info_parts dom ⟨.ok w, ra, raaaa, rmx⟩) ∧
    (w.abuse_contact_email = none →
      "Registrar Abuse Contact Email: N/A" ∈
        InfoCollector.info_parts dom ⟨.ok w, ra, raaaa, rmx⟩) ∧
    (w.abuse_contact_phone = none →
      "Registrar Abuse Contact Phone: N/A" ∈
        InfoCollector.info_parts dom ⟨.ok w, ra, raaaa, rmx⟩) ∧
    (w.status.truthy = false →
      "Domain Status: N/A" ∈ InfoCollector.info_parts dom ⟨.ok w, ra, raaaa, rmx⟩) ∧
    (w.name_servers = [] →
      "Name Server: N/A" ∈ InfoCollector.info_parts dom ⟨.ok w, ra, raaaa, rmx⟩) ∧
    (InfoCollector.optTruthy w.registrant_name = false →
      InfoCollector.optTruthy w.name = false →
      InfoCollector.optTruthy w.registrant_organization = false →
      InfoCollector.optTruthy w.org = false →
      InfoCollector.optTruthy w.registrant_email = false →
      InfoCollector.optTruthy w.admin_name = false →
      InfoCollector.optTruthy w.admin_organization = false →
      InfoCollector.optTruthy w.admin_email = false →
      InfoCollector.optTruthy w.tech_name = false →
      InfoCollector.optTruthy w.tech_organization = false →
      InfoCollector.optTruthy w.tech_email = false →
      InfoCollector.contactLines w = []) := by
  have horNA : ∀ o : Option String, InfoCollector.optTruthy o = false →
      InfoCollector.orNA o = "N/A" := by
    intro o ho
    cases o with
    | none => rfl
    | some s =>
      have hs : s = "" := by simpa [InfoCollector.optTruthy] using ho
      simp [InfoCollector.orNA, hs]
  have hdate : ∀ v : WVal, v.truthy = false → InfoCollector.dateStr v = "N/A" := by
    intro v hv
    cases v with
    | null => rfl
    | str s =>
      have hs : s = "" := by simpa [WVal.truthy] using hv
      simp [InfoCollector.dateStr, hs]
    | lst l =>
      have hl : l = [] := by simpa [WVal.truthy] using hv
      simp [InfoCollector.dateStr, hl]
  have hstatus : ∀ v : WVal, v.truthy = false → InfoCollector.statusStr v = "N/A" := by
    intro v hv
    cases v with
    | null => rfl
    | str s =>
      have hs : s = "" := by simpa [WVal.truthy] using hv
      simp [InfoCollector.statusStr, hs]
    | lst l =>
      have hl : l = [] := by simpa [WVal.truthy] using hv
      simp [InfoCollector.statusStr, hl]
  refine ⟨?_, horNA, hdate, hstatus, ?_, ?_, ?_, ?_, ?_, ?_, ?_, ?_, ?_, ?_, ?_, ?_, ?_⟩
  · cases hv : attrs a with
    | null => simp [TldChecker.get_val, hv]
    | str s =>
      rw [hv] at h
      have hs : s = "" := by simpa [WVal.truthy] using h
      simp [TldChecker.get_val, hv, hs]
    | lst l =>
      rw [hv] at h
      have hl : l = [] := by simpa [WVal.truthy] using h
      simp [TldChecker.get_val, hv, hl]
  · intro hrid
    simp [InfoCollector.info_parts, InfoCollector.whoisSection, hdn,
      InfoCollector.whoisInfoLines, InfoCollector.orNA, hrid]
  · intro hws
    simp [InfoCollector.info_parts, InfoCollector.whoisSection, hdn,
      InfoCollector.whoisInfoLines, InfoCollector.orNA, hws]
  · intro hurl hreg
    have hu : w.registrar_url.getD "" = "" := by
      simpa [InfoCollector.optTruthy] using hurl
    simp [InfoCollector.info_parts, InfoCollector.whoisSection, hdn,
      InfoCollector.whoisInfoLines, InfoCollector.registrarUrlField,
      InfoCollector.optTruthy, hu, hreg]
  · intro hud
    have h1 := hdate w.updated_date hud
    simp [InfoCollector.info_parts, InfoCollector.whoisSection, hdn,
      InfoCollector.whoisInfoLines, h1]
  · intro hcd
    have h1 := hdate w.creation_date hcd
    simp [InfoCollector.info_parts, InfoCollector.whoisSection, hdn,
      InfoCollector.whoisInfoLines, h1]
  · intro hed
    have h1 := hdate w.expiration_date hed
    simp [InfoCollector.info_parts, InfoCollector.whoisSection, hdn,
      InfoCollector.whoisInfoLines, h1]
  · intro hreg
    simp [InfoCollector.info_parts, InfoCollector.whoisSection, hdn,
      InfoCollector.whoisInfoLines, InfoCollector.orNA, hreg]
  · intro hiana
    simp [InfoCollector.info_parts, InfoCollector.whoisSection, hdn,
      InfoCollector.whoisInfoLines, InfoCollector.orNA, hiana]
  · intro hae
    simp [InfoCollector.info_parts, InfoCollector.whoisSection, hdn,
      InfoCollector.whoisInfoLines, InfoCollector.orNA, hae]
  · intro hap
    simp [InfoCollector.info_parts, InfoCollector.whoisSection, hdn,
      InfoCollector.whoisInfoLines, InfoCollector.orNA, hap]
  · intro hst
    have h1 := hstatus w.status hst
    simp [InfoCollector.info_parts, InfoCollector.whoisSection, hdn,
      InfoCollector.whoisInfoLines, h1]
  · intro hns
    simp [InfoCollector.info_parts, InfoCollector.whoisSection, hdn,
      InfoCollector.whoisInfoLines, hns]
  · intro h1 h2 h3 h4 h5 h6 h7 h8 h9 h10 h11
    simp [InfoCollector.contactLines, InfoCollector.pyOrS,
      h1, h2, h3, h4, h5, h6, h7, h8, h9, h10, h11]

/-- Witness for `c3_na_amended` on a record whose optional fields are all
absent. -/
theorem c3_na_amended_witness :
    TldChecker.get_val (fun _ => WVal.null) "registrar" false false = "N/A" ∧
    (∀ o : Option String, InfoCollector.optTruthy o = false → InfoCollector.orNA o = "N/A") ∧
    (∀ v : WVal, v.truthy = false → InfoCollector.dateStr v = "N/A") ∧
    (∀ v : WVal, v.truthy = false → InfoCollector.statusStr v = "N/A") ∧
    ((mkWRec (.str "brandx.com") none none .null).registry_domain_id = none →
      "Registry Domain ID: N/A" ∈ InfoCollector.info_parts "brandx.com"
        ⟨.ok (mkWRec (.str "brandx.com") none none .null), .nxdomain, .nxdomain, .nxdomain⟩) ∧
    ((mkWRec (.str "brandx.com") none none .null).whois_server = none →
      "Registrar WHOIS Server: N/A" ∈ InfoCollector.info_parts "brandx.com"
        ⟨.ok (mkWRec (.str "brandx.com") none none .null), .nxdomain, .nxdomain, .nxdomain⟩) ∧
    (InfoCollector.optTruthy (mkWRec (.str "brandx.com") none none .null).registrar_url = false →
      (mkWRec (.str "brandx.com") none none .null).registrar = none →
      "Registrar URL: N/A" ∈ InfoCollector.info_parts "brandx.com"
        ⟨.ok (mkWRec (.str "brandx.com") none none .null), .nxdomain, .nxdomain, .nxdomain⟩) ∧
    ((mkWRec (.str "brandx.com") none none .null).updated_date.truthy = false →
      "Updated Date: N/A" ∈ InfoCollector.info_parts "brandx.com"
        ⟨.ok (mkWRec (.str "brandx.com") none none .null), .nxdomain, .nxdomain, .nxdomain⟩) ∧
    ((mkWRec (.str "brandx.com") none none .null).creation_date.truthy = false →
      "Creation Date: N/A" ∈ InfoCollector.info_parts "brandx.com"
        ⟨.ok (mkWRec (.str "brandx.com") none none .null), .nxdomain, .nxdomain, .nxdomain⟩) ∧
    ((mkWRec (.str "brandx.com") none none .null).expiration_date.truthy = false →
      "Registrar Registration Expiration Date: N/A" ∈ InfoCollector.info_parts "brandx.com"
        ⟨.ok (mkWRec (.str "brandx.com") none none .null), .nxdomain, .nxdomain, .nxdomain⟩) ∧
    ((mkWRec (.str "brandx.com") none none .null).registrar = none →
      "Registrar: N/A" ∈ InfoCollector.info_parts "brandx.com"
        ⟨.ok (mkWRec (.str "brandx.com") none none .null), .nxdomain, .nxdomain, .nxdomain⟩) ∧
    ((mkWRec (.str "brandx.com") none none .null).iana_id = none →
      "Registrar IANA ID: N/A" ∈ InfoCollector.info_parts "brandx.com"
        ⟨.ok (mkWRec (.str "brandx.com") none none .null), .nxdomain, .nxdomain, .nxdomain⟩) ∧
    ((mkWRec (.str "brandx.com") none none .null).abuse_contact_email = none →
      "Registrar Abuse Contact Email: N/A" ∈ InfoCollector.info_parts "brandx.com"
        ⟨.ok (mkWRec (.str "brandx.com") none none .null), .nxdomain, .nxdomain, .nxdomain⟩) ∧
    ((mkWRec (.str "brandx.com") none none .null).abuse_contact_phone = none →
      "Registrar Abuse Contact Phone: N/A" ∈ InfoCollector.info_parts "brandx.com"
        ⟨.ok (mkWRec (.str "brandx.com") none none .null), .nxdomain, .nxdomain, .nxdomain⟩) ∧
    ((mkWRec (.str "brandx.com") none none .null).status.truthy = false →
      "Domain Status: N/A" ∈ InfoCollector.info_parts "brandx.com"
        ⟨.ok (mkWRec (.str "brandx.com") none none .null), .nxdomain, .nxdomain, .nxdomain⟩) ∧
    ((mkWRec (.str "brandx.com") none none .null).name_servers = [] →
      "Name Server: N/A" ∈ InfoCollector.info_parts "brandx.com"
        ⟨.ok (mkWRec (.str "brandx.com") none none .null), .nxdomain, .nxdomain, .nxdomain⟩) ∧
    (InfoCollector.optTruthy (mkWRec (.str "brandx.com") none none .null).registrant_name = false →
      InfoCollector.optTruthy (mkWRec (.str "brandx.com") none none .null).name = false →
      InfoCollector.optTruthy
        (mkWRec (.str "brandx.com") none none .null).registrant_organization = false →
      InfoCollector.optTruthy (mkWRec (.str "brandx.com") none none .null).org = false →
      InfoCollector.optTruthy (mkWRec (.str "brandx.com") none none .null).registrant_email = false →
      InfoCollector.optTruthy (mkWRec (.str "brandx.com") none none .null).admin_name = false →
      InfoCollector.optTruthy
        (mkWRec (.str "brandx.com") none none .null).admin_organization = false →
      InfoCollector.optTruthy (mkWRec (.str "brandx.com") none none .null).admin_email = false →
      InfoCollector.optTruthy (mkWRec (.str "brandx.com") none none .null).tech_name = false →
      InfoCollector.optTruthy
        (mkWRec (.str "brandx.com") none none .null).tech_organization = false →
      InfoCollector.optTruthy (mkWRec (.str "brandx.com") none none .null).tech_email = false →
      InfoCollector.contactLines (mkWRec (.str "brandx.com") none none .null) = []) :=
  c3_na_amended (fun _ => WVal.null) "registrar" false false (by decide)
    (mkWRec (.str "brandx.com") none none .null) "brandx.com" .nxdomain .nxdomain .nxdomain
    (by decide)

/-- C9 counterexample: for the non-empty registrar name `"."` the processed
name is empty, and the code leaves the Registrar URL at `N/A` instead of the
synthesized `https://www..com` the claim prescribes. -/
theorem c9_empty_processed_name_counterexample :
    ("." : String) ≠ "" ∧
    InfoCollector.regNameOf "." = "" ∧
    "Registrar URL: N/A" ∈ InfoCollector.info_parts "brandx.com"
      ⟨.ok (mkWRec (.str "brandx.com") none (some ".") .null), .nxdomain, .nxdomain, .nxdomain⟩ ∧
    "Registrar URL: https://www..com" ∉ InfoCollector.info_parts "brandx.com"
      ⟨.ok (mkWRec (.str "brandx.com") none (some ".") .null), .nxdomain, .nxdomain, .nxdomain⟩ := by
  refine ⟨by decide, by decide, by decide, by decide⟩

/-- C9 (amended): with no truthy explicit registrar URL attribute, the
Registrar URL field is synthesized as `https://www.<name>.com` from the
registrar name when the processed name is non-empty; when the processed name is
empty, or neither field is present, the field is `N/A`. -/
theorem c9_registrar_url_amended (w : InfoCollector.WhoisRec) (dom : String)
    (ra raaaa : DnsRes String) (rmx : DnsRes (Nat × String))
    (hdn : w.domain_name.truthy = true)
    (hurl : InfoCollector.optTruthy w.registrar_url = false) :
    (∀ r, w.registrar = some r → InfoCollector.regNameOf r ≠ "" →
      ("Registrar URL: " ++ ("https://www." ++ InfoCollector.regNameOf r ++ ".com")) ∈
        InfoCollector.info_parts dom ⟨.ok w, ra, raaaa, rmx⟩) ∧
    (w.registrar = none →
      "Registrar URL: N/A" ∈ InfoCollector.info_parts dom ⟨.ok w, ra, raaaa, rmx⟩) := by
  have hu : w.registrar_url.getD "" = "" := by
    simpa [InfoCollector.optTruthy] using hurl
  constructor
  · intro r hreg hm
    have hr : r ≠ "" := by
      intro he
      rw [he] at hm
      exact hm rfl
    simp [InfoCollector.info_parts, InfoCollector.whoisSection, hdn,
      InfoCollector.whoisInfoLines, InfoCollector.registrarUrlField,
      InfoCollector.optTruthy, hu, hreg, hr, hm]
  · intro hreg
    simp [InfoCollector.info_parts, InfoCollector.whoisSection, hdn,
      InfoCollector.whoisInfoLines, InfoCollector.registrarUrlField,
      InfoCollector.optTruthy, hu, hreg]

/-- Witness for `c9_registrar_url_amended` on a registrar name with a comma
segment, upper-case letters, spaces and periods. -/
theorem c9_registrar_url_amended_witness :
    (∀ r, (mkWRec (.str "brandx.com") none (some "GoDaddy.com, LLC") .null).registrar = some r →
      InfoCollector.regNameOf r ≠ "" →
      ("Registrar URL: " ++ ("https://www." ++ InfoCollector.regNameOf r ++ ".com")) ∈
        InfoCollector.info_parts "brandx.com"
          ⟨.ok (mkWRec (.str "brandx.com") none (some "GoDaddy.com, LLC") .null),
            .nxdomain, .nxdomain, .nxdomain⟩) ∧
    ((mkWRec (.str "brandx.com") none (some "GoDaddy.com, LLC") .null).registrar = none →
      "Registrar URL: N/A" ∈ InfoCollector.info_parts "brandx.com"
        ⟨.ok (mkWRec (.str "brandx.com") none (some "GoDaddy.com, LLC") .null),
          .nxdomain, .nxdomain, .nxdomain⟩) :=
  c9_registrar_url_amended (mkWRec (.str "brandx.com") none (some "GoDaddy.com, LLC") .null)
    "brandx.com" .nxdomain .nxdomain .nxdomain (by decide) (by decide)

/-- C5 counterexample: the collector joins the WHOIS status list in the order
received, without sorting or de-duplication — `["b", "a", "a"]` renders as
`b, a, a`, not as the sorted de-duplicated `a, b` the claim prescribes for both
tools. -/
theorem c5_status_unsorted_counterexample :
    "Domain Status: b, a, a" ∈ InfoCollector.info_parts "brandx.com"
      ⟨.ok (mkWRec (.str "brandx.com") none none (.lst ["b", "a", "a"])),
        .nxdomain, .nxdomain, .nxdomain⟩ ∧
    "Domain Status: a, b" ∉ InfoCollector.info_parts "brandx.com"
      ⟨.ok (mkWRec (.str "brandx.com") none none (.lst ["b", "a", "a"])),
        .nxdomain, .nxdomain, .nxdomain⟩ ∧
    String.intercalate ", " (pySortedSet ["b", "a", "a"]) = "a, b" := by
  refine ⟨by decide, by decide, by decide⟩

/-- C5 (amended): in the TLD checker `get_val` flattens every list-valued WHOIS
field by the stated rule — a date field takes its first element, any other list
field becomes the comma-join of its unique elements in sorted order (elements
shown trimmed and non-empty, as the code trims each element and drops falsy
ones) — while the collector joins its status list in the order received with no
sorting and no de-duplication. -/
theorem c5_list_flatten_amended (attrs : String → WVal) (a : String) (l : List String) (il : Bool)
    (hl : attrs a = .lst l) (hne : l ≠ [])
    (helems : ∀ v ∈ l, trimStr v = v ∧ v ≠ "") :
    TldChecker.get_val attrs a il true = l.headD "" ∧
    (∃ es, TldChecker.get_val attrs a il false = String.intercalate ", " es ∧
      es.Sorted pyLe ∧ es.Nodup ∧ (∀ s, s ∈ es ↔ s ∈ l)) ∧
    (∀ (w : InfoCollector.WhoisRec) (dom : String) (ra raaaa : DnsRes String)
        (rmx : DnsRes (Nat × String)) (sl : List String),
      w.domain_name.truthy = true → w.status = .lst sl → sl ≠ [] →
      ("Domain Status: " ++ String.intercalate ", " sl) ∈
        InfoCollector.info_parts dom ⟨.ok w, ra, raaaa, rmx⟩) := by
  refine ⟨?_, ?_, ?_⟩
  · simp [TldChecker.get_val, hl, hne]
  · have hfilter : l.filter (fun v => !decide (v = "")) = l :=
      List.filter_eq_self.mpr (fun v hv => by simpa using (helems v hv).2)
    have hmap : l.map trimStr = l :=
      (List.map_congr_left (fun v hv => (helems v hv).1)).trans (List.map_id l)
    refine ⟨pySortedSet l, ?_, ?_, ?_, ?_⟩
    · simp [TldChecker.get_val, hl, hne, hfilter, hmap]
    · exact List.sorted_insertionSort pyLe l.dedup
    · exact ((List.perm_insertionSort pyLe l.dedup).nodup_iff).mpr l.nodup_dedup
    · intro s
      unfold pySortedSet
      rw [(List.perm_insertionSort pyLe l.dedup).mem_iff, List.mem_dedup]
  · intro w dom ra raaaa rmx sl hdn hst hsl
    simp [InfoCollector.info_parts, InfoCollector.whoisSection, hdn,
      InfoCollector.whoisInfoLines, InfoCollector.statusStr, hst, hsl]

/-- Witness for `c5_list_flatten_amended` on the status list `["b", "a"]`. -/
theorem c5_list_flatten_amended_witness :
    TldChecker.get_val (fun _ => WVal.lst ["b", "a"]) "status" true true = ["b", "a"].headD "" ∧
    (∃ es, TldChecker.get_val (fun _ => WVal.lst ["b", "a"]) "status" true false =
        String.intercalate ", " es ∧
      es.Sorted pyLe ∧ es.Nodup ∧ (∀ s, s ∈ es ↔ s ∈ ["b", "a"])) ∧
    (∀ (w : InfoCollector.WhoisRec) (dom : String) (ra raaaa : DnsRes String)
        (rmx : DnsRes (Nat × String)) (sl : List String),
      w.domain_name.truthy = true → w.status = .lst sl → sl ≠ [] →
      ("Domain Status: " ++ String.intercalate ", " sl) ∈
        InfoCollector.info_parts dom ⟨.ok w, ra, raaaa, rmx⟩) :=
  c5_list_flatten_amended (fun _ => WVal.lst ["b", "a"]) "status" ["b", "a"] true rfl
    (by decide) (by decide)

/-- C6 counterexample: the collector joins the combined A/AAAA answers in the
order received — `9.9.9.9, 1.1.1.1, ::1` — not de-duplicated and sorted as the
claim prescribes for both tools. -/
theorem c6_collector_ip_counterexample :
    (InfoCollector.ipSection "brandx.com" (.ok ["9.9.9.9", "1.1.1.1"]) (.ok ["::1"])).1 =
      ["Server IP (A/AAAA): 9.9.9.9, 1.1.1.1, ::1"] ∧
    String.intercalate ", " (pySortedSet ["9.9.9.9", "1.1.1.1", "::1"]) =
      "1.1.1.1, 9.9.9.9, ::1" ∧
    ("Server IP (A/AAAA): 9.9.9.9, 1.1.1.1, ::1" : String) ≠
      "Server IP (A/AAAA): 1.1.1.1, 9.9.9.9, ::1" := by
  refine ⟨by decide, by decide, by decide⟩

/-- C6 (amended): in the TLD checker, whenever both the A and the AAAA lookup
return answer lists with at least one address in total, the IP field is the
comma-join of the combined answers de-duplicated and sorted (and the resolves
flag is `Yes`); the collector joins the combined answers in the order received
without de-duplication. -/
theorem c6_ip_dedup_sorted_amended (la laaaa : List String) (hne : la ++ laaaa ≠ []) :
    (∃ ips, TldChecker.ipBlock (.ok la) (.ok laaaa) =
        (String.intercalate ", " ips, "Yes", true, ([] : List String)) ∧
      ips.Sorted pyLe ∧ ips.Nodup ∧ (∀ s, s ∈ ips ↔ s ∈ la ++ laaaa)) ∧
    (InfoCollector.ipSection "brandx.com" (.ok ["9.9.9.9", "1.1.1.1"]) (.ok ["::1"])).1 =
      ["Server IP (A/AAAA): 9.9.9.9, 1.1.1.1, ::1"] := by
  refine ⟨⟨pySortedSet (la ++ laaaa), ?_, ?_, ?_, ?_⟩, by decide⟩
  · simp [TldChecker.ipBlock, hne]
  · exact List.sorted_insertionSort pyLe (la ++ laaaa).dedup
  · exact ((List.perm_insertionSort pyLe (la ++ laaaa).dedup).nodup_iff).mpr (la ++ laaaa).nodup_dedup
  · intro s
    unfold pySortedSet
    rw [(List.perm_insertionSort pyLe (la ++ laaaa).dedup).mem_iff, List.mem_dedup]

/-- Witness for `c6_ip_dedup_sorted_amended` on a duplicated answer set. -/
theorem c6_ip_dedup_sorted_amended_witness :
    (∃ ips, TldChecker.ipBlock (.ok ["2.2.2.2", "1.1.1.1"]) (.ok ["2.2.2.2"]) =
        (String.intercalate ", " ips, "Yes", true, ([] : List String)) ∧
      ips.Sorted pyLe ∧ ips.Nodup ∧
        (∀ s, s ∈ ips ↔ s ∈ ["2.2.2.2", "1.1.1.1"] ++ ["2.2.2.2"])) ∧
    (InfoCollector.ipSection "brandx.com" (.ok ["9.9.9.9", "1.1.1.1"]) (.ok ["::1"])).1 =
      ["Server IP (A/AAAA): 9.9.9.9, 1.1.1.1, ::1"] :=
  c6_ip_dedup_sorted_amended ["2.2.2.2", "1.1.1.1"] ["2.2.2.2"] (by decide)

/-- C4 counterexample: given the MX answers [(20, b.mx.example),
(10, a.mx.example)] the collector renders the field in answer order, not as the
sorted `10 a.mx.example, 20 b.mx.example` the claim prescribes for both tools. -/
theorem c4_collector_mx_counterexample :
    (InfoCollector.mxSection "brandx.com" (.ok [(20, "b.mx.example"), (10, "a.mx.example")])).1 =
      ["Mail Server (MX): 20 b.mx.example, 10 a.mx.example"] ∧
    ("Mail Server (MX): 20 b.mx.example, 10 a.mx.example" : String) ≠
      "Mail Server (MX): 10 a.mx.example, 20 b.mx.example" := by
  refine ⟨by decide, by decide⟩

/-- C4 (amended): in the TLD checker every non-empty MX answer set whose
rendered entries parse back into (preference, stripped exchange) keys is listed
sorted by preference ascending then exchange ascending — in particular
[(20, b.mx.example), (10, a.mx.example)] renders exactly as
`10 a.mx.example, 20 b.mx.example` — while the collector lists MX entries in
answer order. -/
theorem c4_mx_sorted_amended (l : List (Nat × String)) (rip rns : Bool)
    (hne : l ≠ [])
    (hkeys : ∀ pe ∈ l, TldChecker.mxKey (TldChecker.renderMx pe) = (pe.1, rstripDots pe.2) ∧
      2 ≤ (pysplit (TldChecker.renderMx pe)).length) :
    (∃ es, (TldChecker.mxBlock (.ok l) rip rns).1 = String.intercalate ", " es ∧
      es.Perm (l.map TldChecker.renderMx) ∧ es.Sorted TldChecker.mxLe) ∧
    (TldChecker.mxBlock (.ok [(20, "b.mx.example"), (10, "a.mx.example")]) false false).1 =
      "10 a.mx.example, 20 b.mx.example" ∧
    (InfoCollector.mxSection "brandx.com" (.ok [(20, "b.mx.example"), (10, "a.mx.example")])).1 =
      ["Mail Server (MX): 20 b.mx.example, 10 a.mx.example"] := by
  refine ⟨?_, by decide, by decide⟩
  refine ⟨List.insertionSort TldChecker.mxLe (l.map TldChecker.renderMx), ?_,
    List.perm_insertionSort _ _, List.sorted_insertionSort _ _⟩
  have hg : ((l.map TldChecker.renderMx).any fun s => decide ((pysplit s).length < 2)) = false := by
    simp only [List.any_eq_false, List.mem_map, decide_eq_true_eq, not_lt,
      forall_exists_index, and_imp]
    rintro s pe hpe rfl
    exact (hkeys pe hpe).2
  have hne2 : (l.map TldChecker.renderMx).isEmpty = false := by
    cases l with
    | nil => exact absurd rfl hne
    | cons x xs => rfl
  unfold TldChecker.mxBlock
  simp [hne2, hg]

/-- Witness for `c4_mx_sorted_amended` on the example answer set of the spec. -/
theorem c4_mx_sorted_amended_witness :
    (∃ es, (TldChecker.mxBlock (.ok [(20, "b.mx.example"), (10, "a.mx.example")]) false false).1 =
        String.intercalate ", " es ∧
      es.Perm ([(20, "b.mx.example"), (10, "a.mx.example")].map TldChecker.renderMx) ∧
      es.Sorted TldChecker.mxLe) ∧
    (TldChecker.mxBlock (.ok [(20, "b.mx.example"), (10, "a.mx.example")]) false false).1 =
      "10 a.mx.example, 20 b.mx.example" ∧
    (InfoCollector.mxSection "brandx.com" (.ok [(20, "b.mx.example"), (10, "a.mx.example")])).1 =
      ["Mail Server (MX): 20 b.mx.example, 10 a.mx.example"] :=
  c4_mx_sorted_amended [(20, "b.mx.example"), (10, "a.mx.example")] false false
    (by decide) (by decide)
